import Mathlib

/-!
Shallow embedding of the Future-world backend (src/server.js): a prepaid-balance
storefront.  Users are held in an in-memory list mirrored to a file on every
mutation; the handlers modelled here are POST /register, POST /login,
PUT /api/update-profile, POST /api/buy-product, POST /create-order,
POST /verify-payment and GET /api/export-users.

Modelling conventions:
  - JavaScript numbers in request fields become the type JsVal, recording both
    the result of Number(x) (a rational, or NaN) and the JavaScript truthiness
    of the original value, since the handlers test both.
  - String request fields are Lean Strings; the only falsy string is "".
  - Balances, prices and gateway amounts are rationals (exact arithmetic).
  - The external calls (crypto.createHmac(...).digest, razorpay.orders.fetch)
    are parameters of the verify-payment handler: an arbitrary function
    computing the hex HMAC, and the gateway response (an order, or a thrown
    error) keyed by order id.
  - The backing file users.json is the field file of ServerState; saveUsers
    overwrites it with the in-memory list, exactly as fs.writeFileSync does.
-/

namespace FutureWorld

deriving instance DecidableEq for Except

/-- A JavaScript value occupying a numeric request field: it either is
null/undefined, converts to NaN under Number(), or converts to a rational;
truthy records the JavaScript truthiness of the original value. -/
inductive JsVal where
  | missing : JsVal
  | nan (truthy : Bool) : JsVal
  | num (val : ℚ) (truthy : Bool) : JsVal
deriving DecidableEq

/-- Number(x) as an Option: none when the conversion yields NaN. -/
def JsVal.toNumber : JsVal → Option ℚ
  | .missing => none
  | .nan _ => none
  | .num q _ => some q

/-- JavaScript truthiness of the original value. -/
def JsVal.truthy : JsVal → Bool
  | .missing => false
  | .nan t => t
  | .num _ t => t

/-- A product payload as supplied by the client (productData): an object with
at least a name (used by the export) and a price (used by buy-product). -/
structure Product where
  name : String
  price : JsVal
deriving DecidableEq

/-- A user record as stored in the users array and in users.json. -/
structure User where
  id : ℕ
  phoneNumber : String
  password : String
  invitationCode : String
  balance : ℚ
  hashrate : List Product
deriving DecidableEq

/-- The server's mutable state: the in-memory users array and the contents of
the backing file users.json. -/
structure ServerState where
  users : List User
  file : List User
deriving DecidableEq

/-- saveUsers: serialize the whole in-memory collection over the backing file. -/
def saveUsers (st : ServerState) : ServerState :=
  { st with file := st.users }

/-- users.find(u => u.phoneNumber === p): first record with the given phone. -/
def findUser (p : String) (us : List User) : Option User :=
  us.find? fun u => u.phoneNumber == p

/-- In-place mutation of the record found by users.find: replace the first
element satisfying the predicate by its image under f. -/
def updateFirst (p : User → Bool) (f : User → User) : List User → List User
  | [] => []
  | u :: us => if p u then f u :: us else u :: updateFirst p f us

/-! ### POST /register -/

structure RegisterReq where
  phoneNumber : String
  password : String
  invitationCode : String
deriving DecidableEq

/-- POST /register: returns the HTTP status and the new server state. -/
def register (st : ServerState) (req : RegisterReq) : ℕ × ServerState :=
  if req.phoneNumber = "" ∨ req.password = "" ∨ req.invitationCode = "" then
    (400, st)
  else if req.password.length < 8 then
    (400, st)
  else if (findUser req.phoneNumber st.users).isSome then
    (409, st)
  else
    let newUser : User :=
      { id := st.users.length + 1, phoneNumber := req.phoneNumber,
        password := req.password, invitationCode := req.invitationCode,
        balance := 0, hashrate := [] }
    (201, saveUsers { st with users := st.users ++ [newUser] })

/-! ### POST /login -/

structure LoginReq where
  phoneNumber : String
  password : String
deriving DecidableEq

/-- The user object of the successful login response: phone number and balance
only (the password is deliberately not sent back). -/
structure LoginUser where
  phoneNumber : String
  balance : ℚ
deriving DecidableEq

inductive LoginResult where
  | badRequest : LoginResult
  | unauthorized : LoginResult
  | ok (user : LoginUser) : LoginResult
deriving DecidableEq

def LoginResult.isOk : LoginResult → Bool
  | .ok _ => true
  | _ => false

/-- POST /login: pure read of the state, no mutation. -/
def login (st : ServerState) (req : LoginReq) : LoginResult :=
  if req.phoneNumber = "" ∨ req.password = "" then
    .badRequest
  else
    match findUser req.phoneNumber st.users with
    | none => .unauthorized
    | some u =>
      if u.password = req.password then
        .ok { phoneNumber := u.phoneNumber, balance := u.balance }
      else
        .unauthorized

/-! ### PUT /api/update-profile -/

structure UpdateProfileReq where
  phoneNumber : String
  currentPassword : String
  newPassword : String
deriving DecidableEq

inductive UpdateResult where
  | badRequest : UpdateResult
  | notFound : UpdateResult
  | unauthorized : UpdateResult
  | ok : UpdateResult
deriving DecidableEq

/-- PUT /api/update-profile: overwrite the stored password after re-checking the
current one. -/
def updateProfile (st : ServerState) (req : UpdateProfileReq) :
    UpdateResult × ServerState :=
  if req.phoneNumber = "" ∨ req.currentPassword = "" ∨ req.newPassword = "" then
    (.badRequest, st)
  else if req.newPassword.length < 8 then
    (.badRequest, st)
  else
    match findUser req.phoneNumber st.users with
    | none => (.notFound, st)
    | some u =>
      if u.password = req.currentPassword then
        (.ok, saveUsers { st with
          users := updateFirst (fun v => v.phoneNumber == req.phoneNumber)
            (fun v => { v with password := req.newPassword }) st.users })
      else
        (.unauthorized, st)

/-! ### POST /api/buy-product -/

structure BuyReq where
  phoneNumber : String
  productData : Option Product
deriving DecidableEq

inductive BuyResult where
  | serverError : BuyResult
  | badRequest : BuyResult
  | notFound : BuyResult
  | insufficient : BuyResult
  | ok (newBalance : ℚ) : BuyResult
deriving DecidableEq

/-- POST /api/buy-product.  When productData is absent the handler throws on
productData.price before any validation (serverError, a 500 from the framework);
otherwise it validates, checks the balance, and deducts while appending the
product to the user's hashrate list. -/
def buyProduct (st : ServerState) (req : BuyReq) : BuyResult × ServerState :=
  match req.productData with
  | none => (.serverError, st)
  | some pd =>
    if req.phoneNumber = "" ∨ pd.price.truthy = false then
      (.badRequest, st)
    else
      match pd.price.toNumber with
      | none => (.badRequest, st)
      | some numericPrice =>
        if numericPrice ≤ 0 then
          (.badRequest, st)
        else
          match findUser req.phoneNumber st.users with
          | none => (.notFound, st)
          | some u =>
            if u.balance < numericPrice then
              (.insufficient, st)
            else
              (.ok (u.balance - numericPrice),
               saveUsers { st with
                 users := updateFirst (fun v => v.phoneNumber == req.phoneNumber)
                   (fun v => { v with
                      balance := v.balance - numericPrice,
                      hashrate := v.hashrate ++ [pd] }) st.users })

/-! ### POST /create-order -/

/-- The notes map attached to a gateway order: the initiating phone number, an
optional qrId from the recharge page, and an optional purchase-intent marker. -/
structure OrderNotes where
  phoneNumber : String
  qrId : Option String
  purchaseType : Option String
deriving DecidableEq

structure CreateOrderReq where
  amount : JsVal
  currency : String
  qrId : String
  phoneNumber : String
  notes : Option OrderNotes
deriving DecidableEq

/-- The options object passed to razorpay.orders.create. -/
structure OrderOptions where
  amount : ℤ
  currency : String
  receipt : String
  notes : OrderNotes
deriving DecidableEq

inductive CreateOrderError where
  | missingFields : CreateOrderError
  | invalidAmount : CreateOrderError
deriving DecidableEq

/-- Both validation failures of create-order answer with HTTP 400. -/
def CreateOrderError.status : CreateOrderError → ℕ
  | .missingFields => 400
  | .invalidAmount => 400

/-- Math.round for a rational: nearest integer, ties rounded up. -/
def jsRound (q : ℚ) : ℤ := ⌊q + 1 / 2⌋

/-- POST /create-order up to the gateway call: either a 400 validation error
(no gateway call is made), or the options object sent to the gateway.  now is
the timestamp used for the receipt string. -/
def createOrder (req : CreateOrderReq) (now : ℕ) :
    Except CreateOrderError OrderOptions :=
  if req.currency = "" ∨ req.phoneNumber = "" ∨ req.amount = .missing then
    .error .missingFields
  else
    match req.amount.toNumber with
    | none => .error .invalidAmount
    | some numericAmount =>
      if numericAmount ≤ 0 then
        .error .invalidAmount
      else
        let base := req.notes.getD { phoneNumber := "", qrId := none, purchaseType := none }
        let orderNotes : OrderNotes :=
          { base with
            phoneNumber := req.phoneNumber,
            qrId := if req.qrId ≠ "" then some req.qrId else base.qrId }
        .ok { amount := jsRound (numericAmount * 100), currency := req.currency,
              receipt := "receipt_order_" ++ toString now, notes := orderNotes }

/-! ### POST /verify-payment -/

/-- A gateway order as returned by razorpay.orders.fetch: the amount in minor
currency units and the notes set at creation time. -/
structure Order where
  amount : ℚ
  notes : OrderNotes
deriving DecidableEq

structure VerifyReq where
  razorpay_order_id : String
  razorpay_payment_id : String
  razorpay_signature : String
  productData : Option Product
deriving DecidableEq

inductive VerifyResult where
  | missingDetails : VerifyResult
  | invalidSignature : VerifyResult
  | fetchError : VerifyResult
  | userNotFound : VerifyResult
  | productOk : VerifyResult
  | rechargeOk (orderId : String) (newBalance : ℚ) : VerifyResult
deriving DecidableEq

def VerifyResult.isSuccess : VerifyResult → Bool
  | .productOk => true
  | .rechargeOk _ _ => true
  | _ => false

/-- The balance-recharge branch of verify-payment: credit the gateway-reported
amount, converted from minor to major units, and persist. -/
def applyRecharge (st : ServerState) (order : Order) (user : User)
    (orderId : String) : VerifyResult × ServerState :=
  let amountPaid := order.amount / 100
  (.rechargeOk orderId (user.balance + amountPaid),
   saveUsers { st with
     users := updateFirst (fun v => v.phoneNumber == order.notes.phoneNumber)
       (fun v => { v with balance := v.balance + amountPaid }) st.users })

/-- POST /verify-payment.  hmacSha256Hex is the hex digest of the HMAC-SHA256
computed by the crypto library (keyed by its first argument); fetch is the
gateway's response to razorpay.orders.fetch (error when the call throws). -/
def verifyPayment (hmacSha256Hex : String → String → String) (secret : String)
    (fetch : String → Except Unit Order) (st : ServerState) (req : VerifyReq) :
    VerifyResult × ServerState :=
  if req.razorpay_order_id = "" ∨ req.razorpay_payment_id = "" ∨
      req.razorpay_signature = "" then
    (.missingDetails, st)
  else
    let body := req.razorpay_order_id ++ "|" ++ req.razorpay_payment_id
    let expectedSignature := hmacSha256Hex secret body
    if expectedSignature = req.razorpay_signature then
      match fetch req.razorpay_order_id with
      | .error _ => (.fetchError, st)
      | .ok order =>
        match findUser order.notes.phoneNumber st.users with
        | none => (.userNotFound, st)
        | some user =>
          match req.productData with
          | some pd =>
            if order.notes.purchaseType = some "product" then
              (.productOk,
               saveUsers { st with
                 users := updateFirst
                   (fun v => v.phoneNumber == order.notes.phoneNumber)
                   (fun v => { v with hashrate := v.hashrate ++ [pd] }) st.users })
            else
              applyRecharge st order user req.razorpay_order_id
          | none => applyRecharge st order user req.razorpay_order_id
    else
      (.invalidSignature, st)

/-! ### GET /api/export-users -/

/-- One row of the exported spreadsheet: ID, phone number, balance, invitation
code, and the purchased products rendered as text.  No password column exists. -/
structure ExportRow where
  id : ℕ
  phoneNumber : String
  balance : ℚ
  invitationCode : String
  hashrate : String
deriving DecidableEq

/-- The row added for one user: the products cell joins the product names with
a comma, or is the literal placeholder when the purchase list is empty. -/
def exportRow (u : User) : ExportRow :=
  { id := u.id, phoneNumber := u.phoneNumber, balance := u.balance,
    invitationCode := u.invitationCode,
    hashrate := if 0 < u.hashrate.length then
        String.intercalate ", " (u.hashrate.map Product.name)
      else
        "None" }

/-- GET /api/export-users: none when there is no user data (404), otherwise one
row per user. -/
def exportUsers (st : ServerState) : Option (List ExportRow) :=
  if st.users.isEmpty then none else some (st.users.map exportRow)

/-! ### Reachable server states

The server starts with an empty user list (a fresh users.json holds the empty
array) and every state change goes through one of the mutating handlers;
login, logout, get-key, get-hashrate, create-order and export-users never
assign to the users array nor call saveUsers. -/

inductive Op where
  | registerOp (req : RegisterReq) : Op
  | updateProfileOp (req : UpdateProfileReq) : Op
  | buyProductOp (req : BuyReq) : Op
  | verifyPaymentOp (hmacSha256Hex : String → String → String) (secret : String)
      (fetch : String → Except Unit Order) (req : VerifyReq) : Op
  | readOnlyOp : Op

/-- The state transition of one handled request. -/
def applyOp (st : ServerState) : Op → ServerState
  | .registerOp req => (register st req).2
  | .updateProfileOp req => (updateProfile st req).2
  | .buyProductOp req => (buyProduct st req).2
  | .verifyPaymentOp h s f req => (verifyPayment h s f st req).2
  | .readOnlyOp => st

/-- States reachable from a fresh start by handling requests. -/
inductive Reachable : ServerState → Prop where
  | init : Reachable { users := [], file := [] }
  | step (st : ServerState) (op : Op) : Reachable st → Reachable (applyOp st op)

/-- The phone numbers of the stored records, in order. -/
def phones (us : List User) : List String :=
  us.map User.phoneNumber

/-! ### Concrete sample data, used to exercise the theorems below -/

def sampleProduct : Product :=
  { name := "Miner A", price := JsVal.num 5 true }

def sampleUser : User :=
  { id := 1, phoneNumber := "9990001111", password := "hunter2hunter2",
    invitationCode := "INV1", balance := 10, hashrate := [] }

def sampleState : ServerState :=
  { users := [sampleUser], file := [sampleUser] }

def sampleOrder : Order :=
  { amount := 2500, notes := { phoneNumber := "9990001111", qrId := none, purchaseType := none } }

def sampleProductOrder : Order :=
  { amount := 500, notes := { phoneNumber := "9990001111", qrId := none, purchaseType := some "product" } }

def sampleHmac : String → String → String :=
  fun secret body => secret ++ ":" ++ body

def sampleFetch : String → Except Unit Order :=
  fun oid => if oid = "order_1" then .ok sampleOrder else .error ()

def sampleFetchProduct : String → Except Unit Order :=
  fun _ => .ok sampleProductOrder

def sampleVerifyReq : VerifyReq :=
  { razorpay_order_id := "order_1", razorpay_payment_id := "pay_1",
    razorpay_signature := "sec:order_1|pay_1", productData := none }

def sampleCreateReq : CreateOrderReq :=
  { amount := JsVal.num 2 true, currency := "INR", qrId := "",
    phoneNumber := "1", notes := none }

def sampleOrderOpts : OrderOptions :=
  { amount := jsRound (2 * 100), currency := "INR",
    receipt := "receipt_order_" ++ toString 7,
    notes := { phoneNumber := "1", qrId := none, purchaseType := none } }

/-! ### Helper lemmas -/

theorem updateFirst_map {α : Type} (p : User → Bool) (f : User → User) (g : User → α)
    (hf : ∀ u, g (f u) = g u) (l : List User) :
    (updateFirst p f l).map g = l.map g := by
  induction l with
  | nil => rfl
  | cons u us ih =>
    by_cases h : p u
    · simp [updateFirst, h, hf]
    · simp [updateFirst, h, ih]

theorem updateFirst_find? (p : User → Bool) (f : User → User) {l : List User} {u : User}
    (hfind : l.find? p = some u) (hp : p (f u) = true) :
    (updateFirst p f l).find? p = some (f u) := by
  induction l with
  | nil => simp at hfind
  | cons v vs ih =>
    by_cases h : p v
    · rw [List.find?_cons_of_pos _ h] at hfind
      have hvu : v = u := by injection hfind
      subst hvu
      simp only [updateFirst, if_pos h]
      exact List.find?_cons_of_pos _ hp
    · rw [List.find?_cons_of_neg _ h] at hfind
      simp only [updateFirst, if_neg h]
      rw [List.find?_cons_of_neg _ h]
      exact ih hfind

theorem findUser_phone {p : String} {us : List User} {u : User}
    (h : findUser p us = some u) : u.phoneNumber = p := by
  have := List.find?_some h
  simpa using this

theorem findUser_mem {p : String} {us : List User} {u : User}
    (h : findUser p us = some u) : u ∈ us :=
  List.mem_of_find?_eq_some h

/-- Persisting an in-place mutation that does not touch phone numbers keeps the
list of phone numbers unchanged. -/
theorem phones_saveUsers_updateFirst (st : ServerState) (p : User → Bool)
    (f : User → User) (hf : ∀ u, (f u).phoneNumber = u.phoneNumber) :
    phones (saveUsers { st with users := updateFirst p f st.users }).users =
      phones st.users := by
  simp only [saveUsers, phones]
  exact updateFirst_map p f User.phoneNumber hf st.users

/-- Appending a record with a fresh phone number keeps phone numbers distinct. -/
theorem phones_append_nodup {us : List User} {u : User}
    (h : (phones us).Nodup) (hnot : u.phoneNumber ∉ phones us) :
    (phones (us ++ [u])).Nodup := by
  simp only [phones, List.map_append, List.map_cons, List.map_nil]
  rw [List.nodup_append]
  refine ⟨h, List.nodup_singleton _, ?_⟩
  intro a ha hb
  simp only [List.mem_cons, List.not_mem_nil, or_false] at hb
  exact hnot (hb ▸ ha)

/-- Every handler preserves distinctness of the stored phone numbers. -/
theorem applyOp_phones_nodup (st : ServerState) (op : Op)
    (h : (phones st.users).Nodup) : (phones (applyOp st op).users).Nodup := by
  cases op with
  | registerOp req =>
    by_cases h1 : req.phoneNumber = "" ∨ req.password = "" ∨ req.invitationCode = ""
    · simpa [applyOp, register, h1] using h
    · by_cases h2 : req.password.length < 8
      · simpa [applyOp, register, h1, h2] using h
      · by_cases h3 : (findUser req.phoneNumber st.users).isSome
        · simpa [applyOp, register, h1, h2, h3] using h
        · have hnone : findUser req.phoneNumber st.users = none := by
            cases hval : findUser req.phoneNumber st.users with
            | none => rfl
            | some u => rw [hval] at h3; simp at h3
          have hnotin : req.phoneNumber ∉ phones st.users := by
            intro hmem
            rcases List.mem_map.mp hmem with ⟨u, hu, hphone⟩
            have := List.find?_eq_none.mp hnone u hu
            simp [hphone] at this
          have happend : (phones (st.users ++
              [{ id := st.users.length + 1, phoneNumber := req.phoneNumber,
                 password := req.password, invitationCode := req.invitationCode,
                 balance := 0, hashrate := [] }])).Nodup :=
            phones_append_nodup h hnotin
          simpa [applyOp, register, h1, h2, h3, saveUsers, phones] using happend
  | updateProfileOp req =>
    by_cases h1 : req.phoneNumber = "" ∨ req.currentPassword = "" ∨ req.newPassword = ""
    · simpa [applyOp, updateProfile, h1] using h
    · by_cases h2 : req.newPassword.length < 8
      · simpa [applyOp, updateProfile, h1, h2] using h
      · cases hval : findUser req.phoneNumber st.users with
        | none => simpa [applyOp, updateProfile, h1, h2, hval] using h
        | some u =>
          by_cases h3 : u.password = req.currentPassword
          · simp only [applyOp, updateProfile, if_neg h1, if_neg h2, hval, if_pos h3]
            rw [phones_saveUsers_updateFirst]
            · exact h
            · intro v; rfl
          · simpa [applyOp, updateProfile, h1, h2, hval, h3] using h
  | buyProductOp req =>
    cases hpd : req.productData with
    | none => simpa [applyOp, buyProduct, hpd] using h
    | some pd =>
      by_cases h1 : req.phoneNumber = "" ∨ pd.price.truthy = false
      · simpa [applyOp, buyProduct, hpd, h1] using h
      · cases hnum : pd.price.toNumber with
        | none => simpa [applyOp, buyProduct, hpd, h1, hnum] using h
        | some numericPrice =>
          by_cases h2 : numericPrice ≤ 0
          · simpa [applyOp, buyProduct, hpd, h1, hnum, h2] using h
          · cases hval : findUser req.phoneNumber st.users with
            | none => simpa [applyOp, buyProduct, hpd, h1, hnum, h2, hval] using h
            | some u =>
              by_cases h3 : u.balance < numericPrice
              · simpa [applyOp, buyProduct, hpd, h1, hnum, h2, hval, h3] using h
              · simp only [applyOp, buyProduct, hpd, if_neg h1, hnum, if_neg h2,
                  hval, if_neg h3]
                rw [phones_saveUsers_updateFirst]
                · exact h
                · intro v; rfl
  | verifyPaymentOp hm secret fetch req =>
    by_cases h1 : req.razorpay_order_id = "" ∨ req.razorpay_payment_id = "" ∨
        req.razorpay_signature = ""
    · simpa [applyOp, verifyPayment, h1] using h
    · by_cases h2 : hm secret (req.razorpay_order_id ++ "|" ++ req.razorpay_payment_id) =
          req.razorpay_signature
      · cases hfetch : fetch req.razorpay_order_id with
        | error e => simpa [applyOp, verifyPayment, h1, h2, hfetch] using h
        | ok order =>
          cases hval : findUser order.notes.phoneNumber st.users with
          | none => simpa [applyOp, verifyPayment, h1, h2, hfetch, hval] using h
          | some u =>
            cases hpd : req.productData with
            | none =>
              simp only [applyOp, verifyPayment, if_neg h1, if_pos h2, hfetch,
                hval, hpd, applyRecharge]
              rw [phones_saveUsers_updateFirst]
              · exact h
              · intro v; rfl
            | some pd =>
              by_cases h3 : order.notes.purchaseType = some "product"
              · simp only [applyOp, verifyPayment, if_neg h1, if_pos h2, hfetch,
                  hval, hpd, if_pos h3]
                rw [phones_saveUsers_updateFirst]
                · exact h
                · intro v; rfl
              · simp only [applyOp, verifyPayment, if_neg h1, if_pos h2, hfetch,
                  hval, hpd, if_neg h3, applyRecharge]
                rw [phones_saveUsers_updateFirst]
                · exact h
                · intro v; rfl
      · simpa [applyOp, verifyPayment, h1, h2] using h
  | readOnlyOp => exact h

/-- Every reachable server state has pairwise distinct phone numbers. -/
theorem reachable_phones_nodup (st : ServerState) (h : Reachable st) :
    (phones st.users).Nodup := by
  induction h with
  | init => simp [phones]
  | step st op _ ih => exact applyOp_phones_nodup st op ih

/-- With a valid signature, a fetched order not marked as a product purchase,
and a known user, verify-payment takes the recharge branch. -/
theorem verifyPayment_recharge_eq
    (hmacSha256Hex : String → String → String) (secret : String)
    (fetch : String → Except Unit Order) (st : ServerState) (req : VerifyReq)
    (order : Order) (u : User)
    (hO : req.razorpay_order_id ≠ "") (hP : req.razorpay_payment_id ≠ "")
    (hS : req.razorpay_signature ≠ "")
    (hsig : hmacSha256Hex secret
      (req.razorpay_order_id ++ "|" ++ req.razorpay_payment_id) = req.razorpay_signature)
    (hfetch : fetch req.razorpay_order_id = .ok order)
    (hnotprod : order.notes.purchaseType ≠ some "product")
    (hfind : findUser order.notes.phoneNumber st.users = some u) :
    verifyPayment hmacSha256Hex secret fetch st req =
      (.rechargeOk req.razorpay_order_id (u.balance + order.amount / 100),
       saveUsers { st with
         users := updateFirst (fun v => v.phoneNumber == order.notes.phoneNumber)
           (fun v => { v with balance := v.balance + order.amount / 100 }) st.users }) := by
  cases hpd : req.productData with
  | none => simp [verifyPayment, hO, hP, hS, hsig, hfetch, hfind, hpd, applyRecharge]
  | some pd =>
    simp [verifyPayment, hO, hP, hS, hsig, hfetch, hfind, hpd, hnotprod, applyRecharge]

/-- With a valid signature, an order marked purchaseType product, a supplied
product payload, and a known user, verify-payment takes the product branch. -/
theorem verifyPayment_product_eq
    (hmacSha256Hex : String → String → String) (secret : String)
    (fetch : String → Except Unit Order) (st : ServerState) (req : VerifyReq)
    (order : Order) (u : User) (pd : Product)
    (hO : req.razorpay_order_id ≠ "") (hP : req.razorpay_payment_id ≠ "")
    (hS : req.razorpay_signature ≠ "")
    (hsig : hmacSha256Hex secret
      (req.razorpay_order_id ++ "|" ++ req.razorpay_payment_id) = req.razorpay_signature)
    (hfetch : fetch req.razorpay_order_id = .ok order)
    (hprod : order.notes.purchaseType = some "product")
    (hpd : req.productData = some pd)
    (hfind : findUser order.notes.phoneNumber st.users = some u) :
    verifyPayment hmacSha256Hex secret fetch st req =
      (.productOk,
       saveUsers { st with
         users := updateFirst (fun v => v.phoneNumber == order.notes.phoneNumber)
           (fun v => { v with hashrate := v.hashrate ++ [pd] }) st.users }) := by
  simp [verifyPayment, hO, hP, hS, hsig, hfetch, hfind, hpd, hprod]

/-- C1: verify-payment succeeds only when the submitted signature equals the
hex HMAC-SHA256 of order id, separator bar, payment id keyed by the server
secret; any other submitted signature is rejected with the invalid-signature
failure and the server state (balances and purchase lists) is untouched. -/
theorem verify_payment_signature_gate
    (hmacSha256Hex : String → String → String) (secret : String)
    (fetch : String → Except Unit Order) (st : ServerState) (req : VerifyReq)
    (hO : req.razorpay_order_id ≠ "") (hP : req.razorpay_payment_id ≠ "")
    (hS : req.razorpay_signature ≠ "") :
    (req.razorpay_signature ≠ hmacSha256Hex secret
        (req.razorpay_order_id ++ "|" ++ req.razorpay_payment_id) →
      verifyPayment hmacSha256Hex secret fetch st req = (.invalidSignature, st)) ∧
    ((verifyPayment hmacSha256Hex secret fetch st req).1.isSuccess = true →
      req.razorpay_signature = hmacSha256Hex secret
        (req.razorpay_order_id ++ "|" ++ req.razorpay_payment_id)) := by
  have hrej : req.razorpay_signature ≠ hmacSha256Hex secret
      (req.razorpay_order_id ++ "|" ++ req.razorpay_payment_id) →
      verifyPayment hmacSha256Hex secret fetch st req = (.invalidSignature, st) := by
    intro hne
    simp [verifyPayment, hO, hP, hS, Ne.symm hne]
  refine ⟨hrej, ?_⟩
  intro hsucc
  by_contra hne
  rw [hrej hne] at hsucc
  simp [VerifyResult.isSuccess] at hsucc

/-- Witness for C1 at concrete inputs: a mutated signature is rejected and the
state is unchanged. -/
theorem verify_payment_signature_gate_witness :
    verifyPayment sampleHmac "sec" sampleFetch sampleState
        { sampleVerifyReq with razorpay_signature := "sec:order_1|pay_2" } =
      (.invalidSignature, sampleState) :=
  (verify_payment_signature_gate sampleHmac "sec" sampleFetch sampleState
      { sampleVerifyReq with razorpay_signature := "sec:order_1|pay_2" }
      (by decide) (by decide) (by decide)).1 (by decide)

/-- C2: with a valid signature, a fetched order not marked as a product
purchase, and a stored user matching the order's phone number with balance B,
verify-payment answers success with new balance B plus amount over one hundred,
stores that balance on the user, and persists the collection to the file. -/
theorem verify_payment_topup
    (hmacSha256Hex : String → String → String) (secret : String)
    (fetch : String → Except Unit Order) (st : ServerState) (req : VerifyReq)
    (order : Order) (u : User)
    (hO : req.razorpay_order_id ≠ "") (hP : req.razorpay_payment_id ≠ "")
    (hS : req.razorpay_signature ≠ "")
    (hsig : hmacSha256Hex secret
      (req.razorpay_order_id ++ "|" ++ req.razorpay_payment_id) = req.razorpay_signature)
    (hfetch : fetch req.razorpay_order_id = .ok order)
    (hnotprod : order.notes.purchaseType ≠ some "product")
    (hfind : findUser order.notes.phoneNumber st.users = some u) :
    (verifyPayment hmacSha256Hex secret fetch st req).1 =
        .rechargeOk req.razorpay_order_id (u.balance + order.amount / 100) ∧
    findUser order.notes.phoneNumber
        (verifyPayment hmacSha256Hex secret fetch st req).2.users =
      some { u with balance := u.balance + order.amount / 100 } ∧
    (verifyPayment hmacSha256Hex secret fetch st req).2.file =
      (verifyPayment hmacSha256Hex secret fetch st req).2.users := by
  have heq := verifyPayment_recharge_eq hmacSha256Hex secret fetch st req order u
    hO hP hS hsig hfetch hnotprod hfind
  have hp : (fun v => v.phoneNumber == order.notes.phoneNumber)
      ({ u with balance := u.balance + order.amount / 100 } : User) = true := by
    simp [findUser_phone hfind]
  refine ⟨by rw [heq], ?_, by rw [heq]; rfl⟩
  rw [heq]
  exact updateFirst_find? _ _ hfind hp

/-- Witness for C2 at concrete inputs: a 2500 minor-unit order credits 25. -/
theorem verify_payment_topup_witness :
    (verifyPayment sampleHmac "sec" sampleFetch sampleState sampleVerifyReq).1 =
        .rechargeOk sampleVerifyReq.razorpay_order_id
          (sampleUser.balance + sampleOrder.amount / 100) ∧
    findUser sampleOrder.notes.phoneNumber
        (verifyPayment sampleHmac "sec" sampleFetch sampleState sampleVerifyReq).2.users =
      some { sampleUser with balance := sampleUser.balance + sampleOrder.amount / 100 } ∧
    (verifyPayment sampleHmac "sec" sampleFetch sampleState sampleVerifyReq).2.file =
      (verifyPayment sampleHmac "sec" sampleFetch sampleState sampleVerifyReq).2.users :=
  verify_payment_topup sampleHmac "sec" sampleFetch sampleState sampleVerifyReq
    sampleOrder sampleUser (by decide) (by decide) (by decide) (by decide)
    (by decide) (by decide) (by decide)

/-- C3: with a valid signature, an order whose notes mark purchaseType product,
and a supplied product payload, verify-payment appends the payload to the
matched user's purchase list, leaves the balance field as it was, and persists
the collection to the file. -/
theorem verify_payment_product_purchase
    (hmacSha256Hex : String → String → String) (secret : String)
    (fetch : String → Except Unit Order) (st : ServerState) (req : VerifyReq)
    (order : Order) (u : User) (pd : Product)
    (hO : req.razorpay_order_id ≠ "") (hP : req.razorpay_payment_id ≠ "")
    (hS : req.razorpay_signature ≠ "")
    (hsig : hmacSha256Hex secret
      (req.razorpay_order_id ++ "|" ++ req.razorpay_payment_id) = req.razorpay_signature)
    (hfetch : fetch req.razorpay_order_id = .ok order)
    (hprod : order.notes.purchaseType = some "product")
    (hpd : req.productData = some pd)
    (hfind : findUser order.notes.phoneNumber st.users = some u) :
    (verifyPayment hmacSha256Hex secret fetch st req).1 = .productOk ∧
    findUser order.notes.phoneNumber
        (verifyPayment hmacSha256Hex secret fetch st req).2.users =
      some { u with hashrate := u.hashrate ++ [pd] } ∧
    (verifyPayment hmacSha256Hex secret fetch st req).2.file =
      (verifyPayment hmacSha256Hex secret fetch st req).2.users := by
  have heq := verifyPayment_product_eq hmacSha256Hex secret fetch st req order u pd
    hO hP hS hsig hfetch hprod hpd hfind
  have hp : (fun v => v.phoneNumber == order.notes.phoneNumber)
      ({ u with hashrate := u.hashrate ++ [pd] } : User) = true := by
    simp [findUser_phone hfind]
  refine ⟨by rw [heq], ?_, by rw [heq]; rfl⟩
  rw [heq]
  exact updateFirst_find? _ _ hfind hp

/-- Witness for C3 at concrete inputs: the product payload lands in the
purchase list and the balance stays 10. -/
theorem verify_payment_product_purchase_witness :
    (verifyPayment sampleHmac "sec" sampleFetchProduct sampleState
        { sampleVerifyReq with productData := some sampleProduct }).1 = .productOk ∧
    findUser sampleProductOrder.notes.phoneNumber
        (verifyPayment sampleHmac "sec" sampleFetchProduct sampleState
          { sampleVerifyReq with productData := some sampleProduct }).2.users =
      some { sampleUser with hashrate := sampleUser.hashrate ++ [sampleProduct] } ∧
    (verifyPayment sampleHmac "sec" sampleFetchProduct sampleState
        { sampleVerifyReq with productData := some sampleProduct }).2.file =
      (verifyPayment sampleHmac "sec" sampleFetchProduct sampleState
        { sampleVerifyReq with productData := some sampleProduct }).2.users :=
  verify_payment_product_purchase sampleHmac "sec" sampleFetchProduct sampleState
    { sampleVerifyReq with productData := some sampleProduct }
    sampleProductOrder sampleUser sampleProduct (by decide) (by decide) (by decide)
    (by decide) (by decide) (by decide) (by decide) (by decide)

/-- C4: verify-payment is not idempotent.  Replaying the same valid top-up
request succeeds a second time and credits the user again: the balance after
two calls is the initial balance plus twice the order amount in major units.
No applied-order record exists that could reject the replay. -/
theorem verify_payment_not_idempotent
    (hmacSha256Hex : String → String → String) (secret : String)
    (fetch : String → Except Unit Order) (st : ServerState) (req : VerifyReq)
    (order : Order) (u : User)
    (hO : req.razorpay_order_id ≠ "") (hP : req.razorpay_payment_id ≠ "")
    (hS : req.razorpay_signature ≠ "")
    (hsig : hmacSha256Hex secret
      (req.razorpay_order_id ++ "|" ++ req.razorpay_payment_id) = req.razorpay_signature)
    (hfetch : fetch req.razorpay_order_id = .ok order)
    (hnotprod : order.notes.purchaseType ≠ some "product")
    (hfind : findUser order.notes.phoneNumber st.users = some u) :
    (verifyPayment hmacSha256Hex secret fetch st req).1.isSuccess = true ∧
    (verifyPayment hmacSha256Hex secret fetch
        (verifyPayment hmacSha256Hex secret fetch st req).2 req).1.isSuccess = true ∧
    ∃ u2 : User, findUser order.notes.phoneNumber
        (verifyPayment hmacSha256Hex secret fetch
          (verifyPayment hmacSha256Hex secret fetch st req).2 req).2.users =
        some u2 ∧
      u2.balance = u.balance + 2 * (order.amount / 100) := by
  have h1 := verifyPayment_recharge_eq hmacSha256Hex secret fetch st req order u
    hO hP hS hsig hfetch hnotprod hfind
  have hfind1 : findUser order.notes.phoneNumber
      (verifyPayment hmacSha256Hex secret fetch st req).2.users =
      some { u with balance := u.balance + order.amount / 100 } := by
    rw [h1]
    exact updateFirst_find? _ _ hfind (by simp [findUser_phone hfind])
  have h2 := verifyPayment_recharge_eq hmacSha256Hex secret fetch
    (verifyPayment hmacSha256Hex secret fetch st req).2 req order
    { u with balance := u.balance + order.amount / 100 }
    hO hP hS hsig hfetch hnotprod hfind1
  have harith : u.balance + order.amount / 100 + order.amount / 100 =
      u.balance + 2 * (order.amount / 100) := by ring
  refine ⟨by rw [h1]; rfl, by rw [h2]; rfl,
    { u with balance := u.balance + order.amount / 100 + order.amount / 100 },
    ?_, harith⟩
  rw [h2]
  exact updateFirst_find? _ _ hfind1 (by simp [findUser_phone hfind])

/-- Witness for C4 at concrete inputs: replaying the 2500 minor-unit order
takes the balance from 10 to 60 = 10 plus twice 25. -/
theorem verify_payment_not_idempotent_witness :
    (verifyPayment sampleHmac "sec" sampleFetch sampleState sampleVerifyReq).1.isSuccess = true ∧
    (verifyPayment sampleHmac "sec" sampleFetch
        (verifyPayment sampleHmac "sec" sampleFetch sampleState sampleVerifyReq).2
        sampleVerifyReq).1.isSuccess = true ∧
    ∃ u2 : User, findUser sampleOrder.notes.phoneNumber
        (verifyPayment sampleHmac "sec" sampleFetch
          (verifyPayment sampleHmac "sec" sampleFetch sampleState sampleVerifyReq).2
          sampleVerifyReq).2.users = some u2 ∧
      u2.balance = sampleUser.balance + 2 * (sampleOrder.amount / 100) :=
  verify_payment_not_idempotent sampleHmac "sec" sampleFetch sampleState
    sampleVerifyReq sampleOrder sampleUser (by decide) (by decide) (by decide)
    (by decide) (by decide) (by decide) (by decide)

/-- C5: buy-product never drives a balance negative.  For a well-formed request
with numeric price P, if P exceeds the balance the handler answers insufficient
and leaves the state untouched; on success the new balance is the old balance
minus P and is non-negative. -/
theorem buy_product_balance_nonneg
    (st : ServerState) (req : BuyReq) (pd : Product) (u : User) (P : ℚ)
    (hpd : req.productData = some pd)
    (hphone : req.phoneNumber ≠ "")
    (htruthy : pd.price.truthy = true)
    (hnum : pd.price.toNumber = some P)
    (hfind : findUser req.phoneNumber st.users = some u)
    (hB : 0 ≤ u.balance) :
    (u.balance < P → buyProduct st req = (.insufficient, st)) ∧
    (0 < P → ¬ u.balance < P →
      buyProduct st req =
        (.ok (u.balance - P),
         saveUsers { st with
           users := updateFirst (fun v => v.phoneNumber == req.phoneNumber)
             (fun v => { v with
                balance := v.balance - P,
                hashrate := v.hashrate ++ [pd] }) st.users }) ∧
      0 ≤ u.balance - P) := by
  constructor
  · intro hlt
    have hP0 : ¬ P ≤ 0 := not_le.mpr (lt_of_le_of_lt hB hlt)
    simp [buyProduct, hpd, hphone, htruthy, hnum, hP0, hfind, hlt]
  · intro hpos hge
    have hP0 : ¬ P ≤ 0 := not_le.mpr hpos
    refine ⟨?_, sub_nonneg.mpr (not_lt.mp hge)⟩
    simp [buyProduct, hpd, hphone, htruthy, hnum, hP0, hfind, hge]

/-- Witness for C5 at concrete inputs: price 25 against balance 10 is refused
with no mutation, and price 5 leaves a non-negative balance. -/
theorem buy_product_balance_nonneg_witness :
    buyProduct sampleState
        { phoneNumber := "9990001111",
          productData := some { name := "M", price := JsVal.num 25 true } } =
      (.insufficient, sampleState) ∧
    0 ≤ sampleUser.balance - 5 :=
  ⟨(buy_product_balance_nonneg sampleState
      { phoneNumber := "9990001111",
        productData := some { name := "M", price := JsVal.num 25 true } }
      { name := "M", price := JsVal.num 25 true } sampleUser 25
      (by decide) (by decide) (by decide) (by decide) (by decide) (by decide)).1
      (by decide),
   ((buy_product_balance_nonneg sampleState
      { phoneNumber := "9990001111", productData := some sampleProduct }
      sampleProduct sampleUser 5
      (by decide) (by decide) (by decide) (by decide) (by decide) (by decide)).2
      (by decide) (by decide)).2⟩

/-- C6: registering a phone number that is already present answers 409 and adds
no record, and consequently every reachable server state carries pairwise
distinct phone numbers. -/
theorem register_phone_uniqueness :
    (∀ (st : ServerState) (req : RegisterReq),
        req.phoneNumber ≠ "" → req.password ≠ "" → req.invitationCode ≠ "" →
        8 ≤ req.password.length →
        (∃ u ∈ st.users, u.phoneNumber = req.phoneNumber) →
        register st req = (409, st)) ∧
    (∀ st : ServerState, Reachable st → (phones st.users).Nodup) := by
  constructor
  · intro st req h1 h2 h3 h4 hex
    rcases hex with ⟨u, hu, hphone⟩
    have hsome : (findUser req.phoneNumber st.users).isSome := by
      have hex2 : ∃ x, x ∈ st.users ∧ (x.phoneNumber == req.phoneNumber) = true :=
        ⟨u, hu, by simp [hphone]⟩
      simpa [findUser, List.find?_isSome] using hex2
    have hlen : ¬ req.password.length < 8 := not_lt.mpr h4
    simp [register, h1, h2, h3, hlen, hsome]
  · intro st h
    exact reachable_phones_nodup st h

/-- Witness for C6 at concrete inputs: re-registering the stored phone answers
409 unchanged, and the fresh initial state has distinct phones. -/
theorem register_phone_uniqueness_witness :
    register sampleState
        { phoneNumber := "9990001111", password := "password1",
          invitationCode := "c" } = (409, sampleState) ∧
    (phones (ServerState.mk [] []).users).Nodup :=
  ⟨register_phone_uniqueness.1 sampleState
      { phoneNumber := "9990001111", password := "password1", invitationCode := "c" }
      (by decide) (by decide) (by decide) (by decide)
      ⟨sampleUser, by simp [sampleState], by decide⟩,
   register_phone_uniqueness.2 (ServerState.mk [] []) Reachable.init⟩

/-- C7: when every stored record has a non-empty phone number and password,
login answers 200 exactly when the submitted phone matches a stored record
whose password equals the submitted one exactly, and the successful response
carries only the phone number and balance (the response type has no password). -/
theorem login_password_iff (st : ServerState) (req : LoginReq)
    (hstore : ∀ u ∈ st.users, u.phoneNumber ≠ "" ∧ u.password ≠ "") :
    ((login st req).isOk = true ↔
      ∃ u, findUser req.phoneNumber st.users = some u ∧ u.password = req.password) ∧
    (∀ u, findUser req.phoneNumber st.users = some u → u.password = req.password →
      login st req = .ok { phoneNumber := u.phoneNumber, balance := u.balance }) := by
  have hok : ∀ u, findUser req.phoneNumber st.users = some u →
      u.password = req.password →
      login st req = .ok { phoneNumber := u.phoneNumber, balance := u.balance } := by
    intro u hfind hpw
    have hu := findUser_mem hfind
    have h1 : req.phoneNumber ≠ "" := findUser_phone hfind ▸ (hstore u hu).1
    have h2 : req.password ≠ "" := hpw ▸ (hstore u hu).2
    simp [login, h1, h2, hfind, hpw]
  refine ⟨⟨?_, ?_⟩, hok⟩
  · intro hisok
    by_cases h1 : req.phoneNumber = "" ∨ req.password = ""
    · simp [login, h1, LoginResult.isOk] at hisok
    · cases hfind : findUser req.phoneNumber st.users with
      | none => simp [login, h1, hfind, LoginResult.isOk] at hisok
      | some u =>
        by_cases hpw : u.password = req.password
        · exact ⟨u, rfl, hpw⟩
        · simp [login, h1, hfind, hpw, LoginResult.isOk] at hisok
  · rintro ⟨u, hfind, hpw⟩
    rw [hok u hfind hpw]
    rfl

/-- Witness for C7 at concrete inputs: the stored credentials log in. -/
theorem login_password_iff_witness :
    (login sampleState
        { phoneNumber := "9990001111", password := "hunter2hunter2" }).isOk = true :=
  (login_password_iff sampleState
      { phoneNumber := "9990001111", password := "hunter2hunter2" }
      (by decide)).1.mpr ⟨sampleUser, by decide, by decide⟩

/-- C8: a missing, non-numeric or non-positive amount makes create-order answer
400 before any gateway call; on acceptance the amount sent to the gateway is
the amount times one hundred rounded to the nearest integer, and jsRound is
indeed a nearest integer (within one half). -/
theorem create_order_amount (req : CreateOrderReq) (now : ℕ) :
    ((req.amount = .missing ∨ req.amount.toNumber = none ∨
        (∃ q, req.amount.toNumber = some q ∧ q ≤ 0)) →
      ∃ e, createOrder req now = .error e ∧ e.status = 400) ∧
    (∀ opts, createOrder req now = .ok opts →
      ∃ q, req.amount.toNumber = some q ∧ 0 < q ∧ opts.amount = jsRound (q * 100)) ∧
    (∀ q : ℚ, |q - (jsRound q : ℚ)| ≤ 1 / 2) := by
  refine ⟨?_, ?_, ?_⟩
  · intro h
    by_cases h1 : req.currency = "" ∨ req.phoneNumber = "" ∨ req.amount = .missing
    · exact ⟨.missingFields, by simp [createOrder, h1], rfl⟩
    · push_neg at h1
      rcases h with hmiss | hnan | ⟨q, hq, hq0⟩
      · exact absurd hmiss h1.2.2
      · exact ⟨.invalidAmount,
          by simp [createOrder, h1.1, h1.2.1, h1.2.2, hnan], rfl⟩
      · exact ⟨.invalidAmount,
          by simp [createOrder, h1.1, h1.2.1, h1.2.2, hq, hq0], rfl⟩
  · intro opts hok
    by_cases h1 : req.currency = "" ∨ req.phoneNumber = "" ∨ req.amount = .missing
    · simp [createOrder, h1] at hok
    · push_neg at h1
      cases hnum : req.amount.toNumber with
      | none => simp [createOrder, h1.1, h1.2.1, h1.2.2, hnum] at hok
      | some q =>
        by_cases hq0 : q ≤ 0
        · simp [createOrder, h1.1, h1.2.1, h1.2.2, hnum, hq0] at hok
        · refine ⟨q, rfl, lt_of_not_le hq0, ?_⟩
          simp [createOrder, h1.1, h1.2.1, h1.2.2, hnum, hq0] at hok
          rw [← hok]
  · intro q
    simp only [jsRound]
    rw [abs_le]
    have hfl := Int.floor_le (q + 1 / 2)
    have hfl2 := Int.lt_floor_add_one (q + 1 / 2)
    constructor
    · linarith
    · linarith

/-- Witness for C8 at concrete inputs: amount -3 is refused with 400, amount
201 over 200 is sent as 101 minor units, and jsRound 3 over 10 is within one
half. -/
theorem create_order_amount_witness :
    (∃ e, createOrder { sampleCreateReq with amount := JsVal.num (-3) true } 7 =
        .error e ∧ e.status = 400) ∧
    (∃ q, sampleCreateReq.amount.toNumber = some q ∧ 0 < q ∧
      sampleOrderOpts.amount = jsRound (q * 100)) ∧
    |(3 / 10 : ℚ) - (jsRound (3 / 10) : ℚ)| ≤ 1 / 2 :=
  ⟨(create_order_amount { sampleCreateReq with amount := JsVal.num (-3) true } 7).1
      (Or.inr (Or.inr ⟨-3, rfl, by norm_num⟩)),
   (create_order_amount sampleCreateReq 7).2.1 sampleOrderOpts rfl,
   (create_order_amount sampleCreateReq 0).2.2 (3 / 10)⟩

/-- C9: a password shorter than eight characters is always refused: register
answers 400 and creates no record, update-profile answers 400 and changes no
stored password. -/
theorem password_min_length :
    (∀ (st : ServerState) (req : RegisterReq), req.password.length < 8 →
      register st req = (400, st)) ∧
    (∀ (st : ServerState) (req : UpdateProfileReq), req.newPassword.length < 8 →
      updateProfile st req = (.badRequest, st)) := by
  constructor
  · intro st req hlen
    by_cases h1 : req.phoneNumber = "" ∨ req.password = "" ∨ req.invitationCode = ""
    · simp [register, h1]
    · simp [register, h1, hlen]
  · intro st req hlen
    by_cases h1 : req.phoneNumber = "" ∨ req.currentPassword = "" ∨ req.newPassword = ""
    · simp [updateProfile, h1]
    · simp [updateProfile, h1, hlen]

/-- Witness for C9 at concrete inputs: a five-character password is refused by
both handlers with the state unchanged. -/
theorem password_min_length_witness :
    register sampleState
        { phoneNumber := "5", password := "short", invitationCode := "c" } =
      (400, sampleState) ∧
    updateProfile sampleState
        { phoneNumber := "9990001111", currentPassword := "hunter2hunter2",
          newPassword := "short" } = (.badRequest, sampleState) :=
  ⟨password_min_length.1 sampleState
      { phoneNumber := "5", password := "short", invitationCode := "c" } (by decide),
   password_min_length.2 sampleState
      { phoneNumber := "9990001111", currentPassword := "hunter2hunter2",
        newPassword := "short" } (by decide)⟩

/-- C10: each exported row carries the identifier, phone number, balance,
invitation code and the comma-joined product names, with the literal None for
an empty purchase list; the row never depends on the password, and the export
lists one row per user. -/
theorem export_users_rows :
    (∀ u : User, exportRow u =
        { id := u.id, phoneNumber := u.phoneNumber, balance := u.balance,
          invitationCode := u.invitationCode,
          hashrate := if u.hashrate = [] then "None"
            else String.intercalate ", " (u.hashrate.map Product.name) } ∧
      ∀ pw, exportRow { u with password := pw } = exportRow u) ∧
    (∀ st : ServerState, st.users ≠ [] →
      exportUsers st = some (st.users.map exportRow)) := by
  constructor
  · intro u
    constructor
    · by_cases h : u.hashrate = []
      · simp [exportRow, h]
      · have hlen : 0 < u.hashrate.length := List.length_pos.mpr h
        simp [exportRow, h, hlen]
    · intro pw
      rfl
  · intro st hne
    simp [exportUsers, List.isEmpty_iff, hne]

/-- Witness for C10 at concrete inputs: the sample user's row, its password
independence, and the export of the sample state. -/
theorem export_users_rows_witness :
    exportRow sampleUser =
      { id := sampleUser.id, phoneNumber := sampleUser.phoneNumber,
        balance := sampleUser.balance, invitationCode := sampleUser.invitationCode,
        hashrate := if sampleUser.hashrate = [] then "None"
          else String.intercalate ", " (sampleUser.hashrate.map Product.name) } ∧
    exportRow { sampleUser with password := "other" } = exportRow sampleUser ∧
    exportUsers sampleState = some (sampleState.users.map exportRow) :=
  ⟨(export_users_rows.1 sampleUser).1, (export_users_rows.1 sampleUser).2 "other",
   export_users_rows.2 sampleState (by decide)⟩

end FutureWorld
